import Mathlib

/-!
Verification of the L11 Semantic OS core against its specification.

Shallow embedding of `src/L11_Core/encoding_gate_2026-01-14_v1.0.py` and
`src/L11_Core/sic_kernel_2026-01-14_v0.4.1.py`.

Bytes and Unicode code points are `Nat`; a text (Python `str`) is a list of
code points. External capabilities used by the code but not part of it (the
`unicodedata` tables, the optional `regex` emoji classifier, the `zlib`
compressor, the OpenAI embedding client, `uuid.uuid4`, and Python `repr` /
float formatting for human-readable message fields) are explicit parameters:
theorems quantify over their behaviour and state the concrete facts they
need about them as hypotheses. Python floats on the modelled paths are
either finite real values or `float('inf')`, modelled as `WithTop ℝ`.
-/

namespace L11

/-- Strict UTF-8 decoding of a byte list into code points, as Python's
`bytes.decode('utf-8', errors='strict')`: rejects invalid lead bytes,
bad continuation bytes, overlong encodings, surrogate code points and
values above U+10FFFF. -/
def utf8Decode : List Nat → Option (List Nat)
  | [] => some []
  | b :: rest =>
    if b < 0x80 then
      (utf8Decode rest).map (fun t => b :: t)
    else if b < 0xC2 then
      none
    else if b < 0xE0 then
      match rest with
      | b1 :: r =>
        if 0x80 ≤ b1 ∧ b1 < 0xC0 then
          (utf8Decode r).map (fun t => ((b - 0xC0) * 0x40 + (b1 - 0x80)) :: t)
        else none
      | [] => none
    else if b < 0xF0 then
      match rest with
      | b1 :: b2 :: r =>
        if (if b = 0xE0 then 0xA0 ≤ b1 ∧ b1 < 0xC0
            else if b = 0xED then 0x80 ≤ b1 ∧ b1 < 0xA0
            else 0x80 ≤ b1 ∧ b1 < 0xC0) ∧ 0x80 ≤ b2 ∧ b2 < 0xC0 then
          (utf8Decode r).map
            (fun t => ((b - 0xE0) * 0x1000 + (b1 - 0x80) * 0x40 + (b2 - 0x80)) :: t)
        else none
      | _ => none
    else if b < 0xF5 then
      match rest with
      | b1 :: b2 :: b3 :: r =>
        if (if b = 0xF0 then 0x90 ≤ b1 ∧ b1 < 0xC0
            else if b = 0xF4 then 0x80 ≤ b1 ∧ b1 < 0x90
            else 0x80 ≤ b1 ∧ b1 < 0xC0) ∧
            (0x80 ≤ b2 ∧ b2 < 0xC0) ∧ (0x80 ≤ b3 ∧ b3 < 0xC0) then
          (utf8Decode r).map
            (fun t =>
              ((b - 0xF0) * 0x40000 + (b1 - 0x80) * 0x1000 +
                (b2 - 0x80) * 0x40 + (b3 - 0x80)) :: t)
        else none
      | _ => none
    else none

/-- UTF-8 encoding of one code point, as in Python's `str.encode('utf-8')`
(texts hold scalar values only, so the four ranges cover every case). -/
def encodeChar (c : Nat) : List Nat :=
  if c < 0x80 then [c]
  else if c < 0x800 then [0xC0 + c / 0x40, 0x80 + c % 0x40]
  else if c < 0x10000 then
    [0xE0 + c / 0x1000, 0x80 + c / 0x40 % 0x40, 0x80 + c % 0x40]
  else
    [0xF0 + c / 0x40000, 0x80 + c / 0x1000 % 0x40, 0x80 + c / 0x40 % 0x40, 0x80 + c % 0x40]

/-- UTF-8 encoding of a text, as Python's `text.encode('utf-8')`. -/
def utf8Encode (text : List Nat) : List Nat :=
  text.foldr (fun c acc => encodeChar c ++ acc) []

namespace EncodingUnmeasurableReason

/-- Source enum value `EncodingUnmeasurableReason.OK.value`. -/
def OK : String := "OK"

/-- Source enum value `EncodingUnmeasurableReason.UTF8_DECODE_FAILURE.value`. -/
def UTF8_DECODE_FAILURE : String := "SICT_UTF8_DECODE_FAILURE"

/-- Source enum value `EncodingUnmeasurableReason.NORMALIZATION_AMBIGUITY.value`. -/
def NORMALIZATION_AMBIGUITY : String := "SICT_NORMALIZATION_AMBIGUITY"

/-- Source enum value `EncodingUnmeasurableReason.EMOJI_DENSITY_EXCEEDED.value`. -/
def EMOJI_DENSITY_EXCEEDED : String := "SICT_EMOJI_DENSITY_EXCEEDED"

/-- Source enum value `EncodingUnmeasurableReason.RANDOM_NOISE_SIGNATURE.value`. -/
def RANDOM_NOISE_SIGNATURE : String := "SICT_RANDOM_NOISE_SIGNATURE"

/-- Source enum value `EncodingUnmeasurableReason.ENTROPY_OUT_OF_BOUNDS.value`. -/
def ENTROPY_OUT_OF_BOUNDS : String := "SICT_ENTROPY_OUT_OF_BOUNDS"

end EncodingUnmeasurableReason

/-- External Unicode facts consumed by the gate: the `unicodedata` module's
NFC / NFKC normalisation, printability and character-name tables, and the
optional `regex` module's emoji classifier. `emojiAvailable` records whether
`import regex` succeeded at load time. -/
structure UnicodeEnv where
  nfc : List Nat → List Nat
  nfkc : List Nat → List Nat
  isPrintable : Nat → Bool
  hasName : Nat → Bool
  emojiAvailable : Bool
  isEmoji : Nat → Bool

/-- Loop of `is_encoding_unmeasurable` source lines 94-109: walks the text
keeping the run length `k` of consecutive code points with no Unicode
character name; a named code point resets the run, and a run reaching 3
reports a random-noise signature. -/
def runLoop (hn : Nat → Bool) : List Nat → Nat → Bool
  | [], _ => false
  | c :: rest, k =>
    if hn c then runLoop hn rest 0
    else if 3 ≤ k + 1 then true
    else runLoop hn rest (k + 1)

/-- Fraction of non-printable code points of a text,
`sum(1 for c in text if not c.isprintable()) / len(text)` as exact rationals. -/
def non_printable_ratio (u : UnicodeEnv) (text : List Nat) : ℚ :=
  ((text.countP fun c => !u.isPrintable c : Nat) : ℚ) / ((text.length : Nat) : ℚ)

/-- Fraction of emoji code points of a text,
`len(regex.findall(r'\p{Emoji}', text)) / len(text)` as exact rationals. -/
def emoji_ratio (u : UnicodeEnv) (text : List Nat) : ℚ :=
  ((text.countP u.isEmoji : Nat) : ℚ) / ((text.length : Nat) : ℚ)

/-- Compression ratio the gate computes on the raw bytes,
`len(zlib.compress(input_bytes)) / len(input_bytes)`; `z` is the external
`zlib.compress`. -/
def gate_compression_ratio (z : List Nat → List Nat) (input_bytes : List Nat) : ℚ :=
  (((z input_bytes).length : Nat) : ℚ) / ((input_bytes.length : Nat) : ℚ)

/-- Source `is_encoding_unmeasurable` (encoding_gate lines 43-123): the
pre-entropy gate, returning `(is_unmeasurable, reason_code)`. Checks run in
source order, short-circuiting on the first match: (a) strict UTF-8 decode,
empty text measurable, (b) normalization ambiguity, (c) emoji density (only
when the `regex` capability loaded), (d) random-noise signature,
(e) compression-ratio bounds (only for raw payloads of at least 100 bytes). -/
def is_encoding_unmeasurable (u : UnicodeEnv) (z : List Nat → List Nat)
    (input_bytes : List Nat) : Bool × String :=
  match utf8Decode input_bytes with
  | none => (true, EncodingUnmeasurableReason.UTF8_DECODE_FAILURE)
  | some text =>
    if text.length = 0 then (false, EncodingUnmeasurableReason.OK)
    else if u.nfc text ≠ u.nfkc text ∧ (0.10 : ℚ) < non_printable_ratio u text then
      (true, EncodingUnmeasurableReason.NORMALIZATION_AMBIGUITY)
    else if u.emojiAvailable = true ∧ (0.30 : ℚ) < emoji_ratio u text then
      (true, EncodingUnmeasurableReason.EMOJI_DENSITY_EXCEEDED)
    else if runLoop u.hasName text 0 then
      (true, EncodingUnmeasurableReason.RANDOM_NOISE_SIGNATURE)
    else if 100 ≤ input_bytes.length ∧
        (gate_compression_ratio z input_bytes < (0.05 : ℚ) ∨
          (1.2 : ℚ) < gate_compression_ratio z input_bytes) then
      (true, EncodingUnmeasurableReason.ENTROPY_OUT_OF_BOUNDS)
    else (false, EncodingUnmeasurableReason.OK)

/-- Rejection payload of `get_rejection_response` (encoding_gate lines
126-147), a record with exactly the source dict's five keys. -/
structure RejectionResponse where
  error : String
  message : String
  remediation : String
  appeal : String
  documentation : String
deriving DecidableEq

/-- Fixed `message` string of the rejection payload. -/
def rejectionMessage : String :=
  "The input contains encoding patterns that cannot be processed by the SIC/T protocol."

/-- Fixed `remediation` string of the rejection payload. -/
def rejectionRemediation : String :=
  "Please ensure input conforms to RFC 3629 UTF-8 and Unicode Normalization Form C."

/-- Fixed `appeal` string of the rejection payload. -/
def rejectionAppeal : String :=
  "If you believe this is an error, please contact support with the incident ID."

/-- Fixed `documentation` string of the rejection payload. -/
def rejectionDocs : String :=
  "https://sic-sit-protocol.org/docs/encoding-gate"

/-- Source `get_rejection_response`: the standard rejection payload of the
external interface. -/
def get_rejection_response (reason_code : String) : RejectionResponse :=
  ⟨reason_code, rejectionMessage, rejectionRemediation, rejectionAppeal, rejectionDocs⟩

/-- Lockdown payload of `get_lockdown_response` (encoding_gate lines
150-174), a record with exactly the source dict's seven keys; `timestamp`
is `Option` because the source leaves it `None` for the caller to fill. -/
structure LockdownResponse where
  status : String
  reason : String
  incident_id : String
  timestamp : Option String
  notification_sent : Bool
  ticket_created : Bool
  review_deadline : String
deriving DecidableEq

/-- Fixed `status` string of the lockdown payload. -/
def lockdownStatus : String := "FAILSAFE_LOCKDOWN"

/-- Fixed `review_deadline` string of the lockdown payload. -/
def lockdownDeadline : String := "72h"

/-- Source `get_lockdown_response`: the lockdown payload of the internal
interface. -/
def get_lockdown_response (reason_code incident_id : String) : LockdownResponse :=
  ⟨lockdownStatus, reason_code, incident_id, none, true, true, lockdownDeadline⟩

/-- Python float values the kernel produces on the modelled paths: a finite
real number or `float('inf')`, which is `⊤`. -/
abbrev PyFloat : Type := WithTop ℝ

/-- Source constant `S_STAR`. -/
def S_STAR : ℝ := 2.76

/-- Source constant `ENTROPY_FACTOR`. -/
def ENTROPY_FACTOR : ℝ := 0.18

/-- Source constant `THRESHOLD_ASSET`. -/
def THRESHOLD_ASSET : ℝ := 2.76

/-- Source constant `THRESHOLD_CRITICAL`. -/
def THRESHOLD_CRITICAL : ℝ := 4.14

/-- Source constant `THRESHOLD_FAILSAFE_LOCKDOWN` (v0.4: lowered to 5.0). -/
def THRESHOLD_FAILSAFE_LOCKDOWN : ℝ := 5

/-- Source enum `SafetyLevel`. -/
inductive SafetyLevel where
  | NOISE
  | ASSET
  | CRITICAL
  | FAILSAFE_LOCKDOWN
deriving DecidableEq

/-- Position of a band in the order NOISE < ASSET < CRITICAL <
FAILSAFE_LOCKDOWN (the spec's band order). -/
def SafetyLevel.rank : SafetyLevel → Nat
  | .NOISE => 0
  | .ASSET => 1
  | .CRITICAL => 2
  | .FAILSAFE_LOCKDOWN => 3

/-- Source `_get_safety_level` (sic_kernel lines 173-182): thresholds
evaluated from highest to lowest. -/
noncomputable def _get_safety_level (entropy : PyFloat) : SafetyLevel :=
  if (THRESHOLD_FAILSAFE_LOCKDOWN : PyFloat) ≤ entropy then .FAILSAFE_LOCKDOWN
  else if (THRESHOLD_CRITICAL : PyFloat) ≤ entropy then .CRITICAL
  else if (THRESHOLD_ASSET : PyFloat) ≤ entropy then .ASSET
  else .NOISE

namespace EntropyProvider

/-- Source enum value `EntropyProvider.OPENAI.value`. -/
def OPENAI : String := "openai"

/-- Source enum value `EntropyProvider.ZLIB_FALLBACK.value`. -/
def ZLIB_FALLBACK : String := "zlib_fallback"

/-- Source enum value `EntropyProvider.ZLIB_PRIMARY.value`. -/
def ZLIB_PRIMARY : String := "zlib_primary"

end EntropyProvider

/-- Source dataclass `ZlibEntropyEstimate`. Sizes are byte counts; the ratio
is exact rational division, as Python float division of these integers. -/
structure ZlibEntropyEstimate where
  compressed_size : Nat
  original_size : Nat
  compression_ratio : ℚ
  entropy_estimate : PyFloat
  note : String

/-- Fixed `note` string of `ZlibEntropyEstimate`. -/
def zlibNote : String := "Statistical entropy proxy (not semantic density)"

/-- Source `entropy_from_zlib` (sic_kernel lines 217-267): the fallback
entropy estimator over the UTF-8 bytes of the text; `z` is the external
`zlib.compress`. Returns `(entropy_estimate, zlib_result)`. -/
noncomputable def entropy_from_zlib (z : List Nat → List Nat) (text : List Nat) :
    PyFloat × ZlibEntropyEstimate :=
  let input_bytes := utf8Encode text
  let compressed_bytes := z input_bytes
  let original_size := input_bytes.length
  let compressed_size := compressed_bytes.length
  let compression_ratio : ℚ :=
    if 0 < original_size then ((compressed_size : Nat) : ℚ) / ((original_size : Nat) : ℚ)
    else 1
  let entropy_estimate : PyFloat :=
    if compression_ratio ≤ 0 then ⊤
    else (((-Real.log ((compression_ratio : ℚ) : ℝ) / ENTROPY_FACTOR : ℝ)) : PyFloat)
  (entropy_estimate,
    ⟨compressed_size, original_size, compression_ratio, entropy_estimate, zlibNote⟩)

/-- Source `_calculate_semantic_density` (sic_kernel lines 185-194): the L2
norm of the embedding vector (the `text` argument is unused in the source
too). -/
noncomputable def _calculate_semantic_density (embedding : List ℝ) (_text : List Nat) : ℝ :=
  Real.sqrt ((embedding.map fun x => x * x).sum)

/-- Source `_density_to_entropy` (sic_kernel lines 197-212). -/
noncomputable def _density_to_entropy (density : ℝ) : PyFloat :=
  if density ≤ 0 then ⊤
  else ((-Real.log density / ENTROPY_FACTOR : ℝ) : PyFloat)

/-- Source dataclass `EntropyResult`. -/
structure EntropyResult where
  entropy : PyFloat
  safety_level : SafetyLevel
  entropy_provider : String
  embedding : Option (List ℝ)
  semantic_density : Option ℝ
  zlib_estimate : Option ZlibEntropyEstimate
  encoding_unmeasurable : Bool
  encoding_reason : Option String

/-- Exceptions `calculate_entropy` can raise: `ValueError` on empty text
(`InputError` of the spec), `ValueError` carrying the rejection payload on a
gate failure at the external interface (`GateRejection`), and `RuntimeError`
carrying a fresh incident id and the lockdown payload at the internal
interface (`LockdownTrigger`). -/
inductive EngineError where
  | emptyInput
  | gateRejection (reason_code : String) (response : RejectionResponse)
  | lockdownTrigger (reason_code : String) (incident_id : String) (response : LockdownResponse)
deriving DecidableEq

/-- Python argument value `"external"` of `interface_type`. -/
def interfaceExternal : String := "external"

/-- Python argument value `"internal"` of `interface_type`. -/
def interfaceInternal : String := "internal"

/-- Python argument value `"zlib"` of `force_provider`. -/
def forceZlib : String := "zlib"

/-- Source `calculate_entropy` (sic_kernel lines 272-381). `embed` models
the OpenAI embedding call, `Except.error` standing for any exception it
raises (network error, authentication failure, malformed response,
timeout); `fresh_uuid` models the `str(uuid.uuid4())` drawn in the lockdown
branch. -/
noncomputable def calculate_entropy (u : UnicodeEnv) (z : List Nat → List Nat)
    (embed : List Nat → Except String (List ℝ)) (fresh_uuid : String)
    (text : List Nat) (force_provider : Option String) (interface_type : String) :
    Except EngineError EntropyResult :=
  if text = [] then .error .emptyInput
  else
    let input_bytes := utf8Encode text
    let gate := is_encoding_unmeasurable u z input_bytes
    if gate.1 then
      if interface_type = interfaceExternal then
        .error (.gateRejection gate.2 (get_rejection_response gate.2))
      else
        .error (.lockdownTrigger gate.2 fresh_uuid (get_lockdown_response gate.2 fresh_uuid))
    else if force_provider = some forceZlib then
      let r := entropy_from_zlib z text
      .ok ⟨r.1, _get_safety_level r.1, EntropyProvider.ZLIB_PRIMARY,
        none, none, some r.2, false, none⟩
    else
      match embed text with
      | .ok embedding =>
        let semantic_density := _calculate_semantic_density embedding text
        let entropy := _density_to_entropy semantic_density
        .ok ⟨entropy, _get_safety_level entropy, EntropyProvider.OPENAI,
          some embedding, some semantic_density, none, false, none⟩
      | .error _ =>
        let r := entropy_from_zlib z text
        .ok ⟨r.1, _get_safety_level r.1, EntropyProvider.ZLIB_FALLBACK,
          none, none, some r.2, false, none⟩

/-- Python string presentation used only inside human-readable message
fields: `repr` of the two response dicts and `format(x, '.4f')` on floats.
These are external formatting facilities, so they are parameters. -/
structure PyRepr where
  rejection : RejectionResponse → String
  lockdown : LockdownResponse → String
  float4 : PyFloat → String

/-- Message of the `ValueError` raised on empty text. -/
def emptyTextMessage : String := "Text cannot be empty"

/-- Message prefix of the `ValueError` raised on a gate rejection. -/
def unmeasurableMessagePre : String := "Encoding unmeasurable: "

/-- Message prefix of the `RuntimeError` raised on a lockdown. -/
def lockdownMessagePre : String := "Encoding unmeasurable (LOCKDOWN): "

/-- Python `str(e)` of the exceptions `calculate_entropy` raises, mirroring
the f-strings at sic_kernel lines 307, 317 and 323. -/
def exceptionText (pr : PyRepr) : EngineError → String
  | .emptyInput => emptyTextMessage
  | .gateRejection _ response => unmeasurableMessagePre ++ pr.rejection response
  | .lockdownTrigger _ _ response => lockdownMessagePre ++ pr.lockdown response

/-- Source dataclass `CircuitBreakerResult`. -/
structure CircuitBreakerResult where
  blocked : Bool
  reason : String
  entropy : PyFloat
  threshold : ℝ
  message : String

/-- Fixed `reason` string of the blocking branch. -/
def reasonExceeds : String := "Entropy exceeds asset threshold"

/-- Fixed `reason` string of the non-blocking branch. -/
def reasonWithin : String := "Entropy within safe range"

/-- Prefix of the `reason` string of the fail-safe branch. -/
def reasonFailedPre : String := "Entropy calculation failed: "

/-- Message pieces of the three `message` f-strings of the breaker. -/
def msgTriggeredPre : String := "Circuit breaker triggered: entropy "

/-- Suffix of the blocking branch's message (`str(THRESHOLD_ASSET)` is
`"2.76"`). -/
def msgTriggeredSuf : String := " >= 2.76"

/-- Prefix of the non-blocking branch's message. -/
def msgNotTriggeredPre : String := "Circuit breaker not triggered: entropy "

/-- Suffix of the non-blocking branch's message. -/
def msgNotTriggeredSuf : String := " < 2.76"

/-- Prefix of the fail-safe branch's message. -/
def msgFailSafePre : String := "Circuit breaker triggered (Fail-Safe): "

/-- Source `check_circuit_breaker` (sic_kernel lines 386-425): calls
`calculate_entropy(text)` with default arguments and never lets an
exception escape (the `except` arm is the fail-safe branch). -/
noncomputable def check_circuit_breaker (pr : PyRepr) (u : UnicodeEnv)
    (z : List Nat → List Nat) (embed : List Nat → Except String (List ℝ))
    (fresh_uuid : String) (text : List Nat) : CircuitBreakerResult :=
  match calculate_entropy u z embed fresh_uuid text none interfaceExternal with
  | .ok result =>
    if (THRESHOLD_ASSET : PyFloat) ≤ result.entropy then
      ⟨true, reasonExceeds, result.entropy, THRESHOLD_ASSET,
        msgTriggeredPre ++ pr.float4 result.entropy ++ msgTriggeredSuf⟩
    else
      ⟨false, reasonWithin, result.entropy, THRESHOLD_ASSET,
        msgNotTriggeredPre ++ pr.float4 result.entropy ++ msgNotTriggeredSuf⟩
  | .error e =>
    ⟨true, reasonFailedPre ++ exceptionText pr e, ⊤, THRESHOLD_ASSET,
      msgFailSafePre ++ exceptionText pr e⟩

/-- Spec-side random-noise check: somewhere in the text stand three
consecutive code points, each with no assigned Unicode character name. -/
def hasUnnamedTriple (hn : Nat → Bool) : List Nat → Bool
  | a :: b :: c :: rest => (!hn a && !hn b && !hn c) || hasUnnamedTriple hn (b :: c :: rest)
  | _ => false

/-- Whether the first `n` code points of `t` exist and are all unnamed
(helper for relating the source's run-counting loop to `hasUnnamedTriple`). -/
def leadUnnamed (hn : Nat → Bool) : Nat → List Nat → Bool
  | 0, _ => true
  | _ + 1, [] => false
  | n + 1, c :: rest => !hn c && leadUnnamed hn n rest

/-- Gate as the spec words it (§4.1): an ordered decision list returning the
reason of the first matching check — strict UTF-8 decode, empty text OK,
normalization ambiguity (NFC ≠ NFKC and non-printable fraction above 0.10),
emoji density above 0.30 when the classifier capability is available, three
consecutive unnamed code points, and, only for raw payloads of at least 100
bytes, the compression ratio outside [0.05, 1.2]; OK when nothing matches.
Second definition written from the spec for the refinement claim C6. -/
def gateSpec (u : UnicodeEnv) (z : List Nat → List Nat)
    (input_bytes : List Nat) : Bool × String :=
  match utf8Decode input_bytes with
  | none => (true, EncodingUnmeasurableReason.UTF8_DECODE_FAILURE)
  | some text =>
    if text.length = 0 then (false, EncodingUnmeasurableReason.OK)
    else if u.nfc text ≠ u.nfkc text ∧ (0.10 : ℚ) < non_printable_ratio u text then
      (true, EncodingUnmeasurableReason.NORMALIZATION_AMBIGUITY)
    else if u.emojiAvailable = true ∧ (0.30 : ℚ) < emoji_ratio u text then
      (true, EncodingUnmeasurableReason.EMOJI_DENSITY_EXCEEDED)
    else if hasUnnamedTriple u.hasName text then
      (true, EncodingUnmeasurableReason.RANDOM_NOISE_SIGNATURE)
    else if 100 ≤ input_bytes.length ∧
        (gate_compression_ratio z input_bytes < (0.05 : ℚ) ∨
          (1.2 : ℚ) < gate_compression_ratio z input_bytes) then
      (true, EncodingUnmeasurableReason.ENTROPY_OUT_OF_BOUNDS)
    else (false, EncodingUnmeasurableReason.OK)

/-- Toy stand-in for `unicodedata` where every code point is printable,
named and not an emoji, normalisation is the identity and the emoji
classifier did not load: used to evaluate theorems on concrete inputs. -/
def toyUni : UnicodeEnv :=
  ⟨id, id, fun _ => true, fun _ => true, false, fun _ => false⟩

/-- Toy Unicode tables where the emoji classifier is loaded and classifies
every code point as an emoji. -/
def toyUniEmoji : UnicodeEnv :=
  ⟨id, id, fun _ => true, fun _ => true, true, fun _ => true⟩

/-- Toy compressor that doubles its input: every payload "expands", giving
compression ratio 2 on non-empty input. -/
def toyCompressDouble (b : List Nat) : List Nat := b ++ b

/-- Toy compressor that halves its input. -/
def toyCompressHalve (b : List Nat) : List Nat := b.take (b.length / 2)

/-- Toy compressor returning no bytes at all: compression ratio 0. -/
def toyCompressEmpty (_b : List Nat) : List Nat := []

/-- Error text of the failing toy embedding provider. -/
def toyFailText : String := "connection refused"

/-- Toy embedding provider that always fails, as an unreachable or
unauthenticated OpenAI endpoint. -/
def toyEmbedFail (_text : List Nat) : Except String (List ℝ) :=
  .error toyFailText

/-- Toy incident identifier. -/
def toyUuid : String := "00000000-0000-4000-8000-000000000000"

/-- Fixed output of the toy presentation functions. -/
def toyReprText : String := "repr"

/-- Toy presentation functions for the message fields. -/
def toyRepr : PyRepr :=
  ⟨fun _ => toyReprText, fun _ => toyReprText, fun _ => toyReprText⟩

/-! Helper lemmas. -/

lemma leadUnnamed_mono (hn : Nat → Bool) :
    ∀ (m n : Nat) (t : List Nat), m ≤ n → leadUnnamed hn n t = true →
      leadUnnamed hn m t = true := by
  intro m
  induction m with
  | zero => intro n t _ _; rfl
  | succ m ih =>
    intro n t hmn h
    match n, t with
    | 0, _ => omega
    | n + 1, [] => simp [leadUnnamed] at h
    | n + 1, c :: rest =>
      simp only [leadUnnamed, Bool.and_eq_true] at h ⊢
      exact ⟨h.1, ih n rest (by omega) h.2⟩

lemma leadUnnamed_three_triple (hn : Nat → Bool) (t : List Nat)
    (h : leadUnnamed hn 3 t = true) : hasUnnamedTriple hn t = true := by
  match t with
  | [] => simp [leadUnnamed] at h
  | [a] => simp [leadUnnamed] at h
  | [a, b] => simp [leadUnnamed] at h
  | a :: b :: c :: rest =>
    simp only [leadUnnamed, Bool.and_eq_true] at h
    simp [hasUnnamedTriple, h.1, h.2.1, h.2.2.1]

lemma hasUnnamedTriple_cons_named {hn : Nat → Bool} {c : Nat} (rest : List Nat)
    (hc : hn c = true) :
    hasUnnamedTriple hn (c :: rest) = hasUnnamedTriple hn rest := by
  match rest with
  | [] => simp [hasUnnamedTriple]
  | [b] => simp [hasUnnamedTriple]
  | b :: d :: r => simp [hasUnnamedTriple, hc]

lemma hasUnnamedTriple_cons_unnamed {hn : Nat → Bool} {c : Nat} (rest : List Nat)
    (hc : hn c = false) :
    hasUnnamedTriple hn (c :: rest) =
      (leadUnnamed hn 2 rest || hasUnnamedTriple hn rest) := by
  match rest with
  | [] => simp [hasUnnamedTriple, leadUnnamed]
  | [b] => simp [hasUnnamedTriple, leadUnnamed]
  | b :: d :: r => simp [hasUnnamedTriple, leadUnnamed, hc, Bool.and_assoc]

lemma runLoop_eq_aux (hn : Nat → Bool) :
    ∀ (t : List Nat) (k : Nat), k ≤ 2 →
      runLoop hn t k = (leadUnnamed hn (3 - k) t || hasUnnamedTriple hn t) := by
  intro t
  induction t with
  | nil =>
    intro k hk
    have h3 : 3 - k = (2 - k) + 1 := by omega
    simp [runLoop, leadUnnamed, hasUnnamedTriple, h3]
  | cons c rest ih =>
    intro k hk
    have h3 : 3 - k = (2 - k) + 1 := by omega
    by_cases hc : hn c = true
    · have hleft : leadUnnamed hn (3 - k) (c :: rest) = false := by
        simp [h3, leadUnnamed, hc]
      rw [hasUnnamedTriple_cons_named rest hc]
      have hrun : runLoop hn (c :: rest) k = runLoop hn rest 0 := by
        simp [runLoop, hc]
      rw [hrun, ih 0 (by omega), hleft]
      cases h3r : leadUnnamed hn 3 rest with
      | false => simp
      | true => simp [leadUnnamed_three_triple hn rest h3r]
    · have hc' : hn c = false := by
        cases h : hn c
        · rfl
        · exact absurd h hc
      by_cases hk2 : k = 2
      · subst hk2
        have hrun : runLoop hn (c :: rest) 2 = true := by
          simp [runLoop, hc']
        have hlead : leadUnnamed hn (3 - 2) (c :: rest) = true := by
          simp [leadUnnamed, hc']
        rw [hrun, hlead]
        simp
      · have hk1 : k ≤ 1 := by omega
        have hrun : runLoop hn (c :: rest) k = runLoop hn rest (k + 1) := by
          simp [runLoop, hc']
          omega
        rw [hrun, ih (k + 1) (by omega)]
        have h2k : 3 - (k + 1) = 2 - k := by omega
        rw [h2k]
        have hlead : leadUnnamed hn (3 - k) (c :: rest) = leadUnnamed hn (2 - k) rest := by
          simp [h3, leadUnnamed, hc']
        rw [hasUnnamedTriple_cons_unnamed rest hc', hlead]
        cases h2r : leadUnnamed hn 2 rest with
        | false => simp
        | true =>
          have : leadUnnamed hn (2 - k) rest = true :=
            leadUnnamed_mono hn (2 - k) 2 rest (by omega) h2r
          simp [this]

lemma runLoop_eq_hasUnnamedTriple (hn : Nat → Bool) (t : List Nat) :
    runLoop hn t 0 = hasUnnamedTriple hn t := by
  rw [runLoop_eq_aux hn t 0 (by omega)]
  cases h3 : leadUnnamed hn 3 t with
  | false => simp
  | true => simp [leadUnnamed_three_triple hn t h3]

lemma thr_asset_le_critical :
    ((THRESHOLD_ASSET : ℝ) : PyFloat) ≤ ((THRESHOLD_CRITICAL : ℝ) : PyFloat) :=
  WithTop.coe_le_coe.mpr (by norm_num [THRESHOLD_ASSET, THRESHOLD_CRITICAL])

lemma thr_critical_le_lockdown :
    ((THRESHOLD_CRITICAL : ℝ) : PyFloat) ≤ ((THRESHOLD_FAILSAFE_LOCKDOWN : ℝ) : PyFloat) :=
  WithTop.coe_le_coe.mpr (by norm_num [THRESHOLD_CRITICAL, THRESHOLD_FAILSAFE_LOCKDOWN])

lemma thr_asset_le_lockdown :
    ((THRESHOLD_ASSET : ℝ) : PyFloat) ≤ ((THRESHOLD_FAILSAFE_LOCKDOWN : ℝ) : PyFloat) :=
  le_trans thr_asset_le_critical thr_critical_le_lockdown

lemma gsl_top : _get_safety_level ⊤ = SafetyLevel.FAILSAFE_LOCKDOWN := by
  unfold _get_safety_level
  rw [if_pos le_top]

lemma gsl_eq_lockdown_iff (e : PyFloat) :
    _get_safety_level e = SafetyLevel.FAILSAFE_LOCKDOWN ↔
      (THRESHOLD_FAILSAFE_LOCKDOWN : PyFloat) ≤ e := by
  unfold _get_safety_level
  split_ifs with h1 h2 h3 <;> simp_all

lemma gsl_eq_critical_iff (e : PyFloat) :
    _get_safety_level e = SafetyLevel.CRITICAL ↔
      ((THRESHOLD_CRITICAL : PyFloat) ≤ e ∧ e < (THRESHOLD_FAILSAFE_LOCKDOWN : PyFloat)) := by
  unfold _get_safety_level
  split_ifs with h1 h2 h3
  · exact iff_of_false (by simp) fun h => absurd h.2 (not_lt.mpr h1)
  · exact iff_of_true rfl ⟨h2, not_le.mp h1⟩
  · exact iff_of_false (by simp) fun h => h2 h.1
  · exact iff_of_false (by simp) fun h => h2 h.1

lemma gsl_eq_asset_iff (e : PyFloat) :
    _get_safety_level e = SafetyLevel.ASSET ↔
      ((THRESHOLD_ASSET : PyFloat) ≤ e ∧ e < (THRESHOLD_CRITICAL : PyFloat)) := by
  unfold _get_safety_level
  split_ifs with h1 h2 h3
  · exact iff_of_false (by simp) fun h =>
      absurd (lt_of_lt_of_le h.2 thr_critical_le_lockdown) (not_lt.mpr h1)
  · exact iff_of_false (by simp) fun h => absurd h.2 (not_lt.mpr h2)
  · exact iff_of_true rfl ⟨h3, not_le.mp h2⟩
  · exact iff_of_false (by simp) fun h => h3 h.1

lemma gsl_eq_noise_iff (e : PyFloat) :
    _get_safety_level e = SafetyLevel.NOISE ↔ e < (THRESHOLD_ASSET : PyFloat) := by
  unfold _get_safety_level
  split_ifs with h1 h2 h3
  · exact iff_of_false (by simp) fun h =>
      absurd (lt_of_lt_of_le h thr_asset_le_lockdown) (not_lt.mpr h1)
  · exact iff_of_false (by simp) fun h =>
      absurd (lt_of_lt_of_le h thr_asset_le_critical) (not_lt.mpr h2)
  · exact iff_of_false (by simp) fun h => absurd h (not_lt.mpr h3)
  · exact iff_of_true rfl (not_le.mp h3)

lemma gsl_rank_mono {a b : PyFloat} (hab : a ≤ b) :
    (_get_safety_level a).rank ≤ (_get_safety_level b).rank := by
  by_cases ha1 : (THRESHOLD_FAILSAFE_LOCKDOWN : PyFloat) ≤ a
  · have hb1 := le_trans ha1 hab
    simp [_get_safety_level, ha1, hb1]
  · by_cases ha2 : (THRESHOLD_CRITICAL : PyFloat) ≤ a
    · have hb2 := le_trans ha2 hab
      by_cases hb1 : (THRESHOLD_FAILSAFE_LOCKDOWN : PyFloat) ≤ b <;>
        simp [_get_safety_level, ha1, ha2, hb1, hb2, SafetyLevel.rank]
    · by_cases ha3 : (THRESHOLD_ASSET : PyFloat) ≤ a
      · have hb3 := le_trans ha3 hab
        by_cases hb1 : (THRESHOLD_FAILSAFE_LOCKDOWN : PyFloat) ≤ b <;>
          by_cases hb2 : (THRESHOLD_CRITICAL : PyFloat) ≤ b <;>
            simp [_get_safety_level, ha1, ha2, ha3, hb1, hb2, hb3, SafetyLevel.rank]
      · have : _get_safety_level a = SafetyLevel.NOISE := by
          simp [_get_safety_level, ha1, ha2, ha3]
        rw [this]
        exact Nat.zero_le _

lemma gsl_coe_noise {x : ℝ} (h : x < THRESHOLD_ASSET) :
    _get_safety_level ((x : ℝ) : PyFloat) = SafetyLevel.NOISE :=
  (gsl_eq_noise_iff _).mpr (WithTop.coe_lt_coe.mpr h)

/-! Claim theorems. -/

/-- Claim C3: `_get_safety_level` is total on entropy values including `+∞`,
returns FAILSAFE_LOCKDOWN iff entropy ≥ 5.0, CRITICAL iff 4.14 ≤ entropy <
5.0, ASSET iff 2.76 ≤ entropy < 4.14, NOISE iff entropy < 2.76; the
boundary inputs 5.0, 4.14 and 2.76 map to FAILSAFE_LOCKDOWN, CRITICAL and
ASSET, `+∞` maps to FAILSAFE_LOCKDOWN, and the function is monotonic
non-decreasing for the band order NOISE < ASSET < CRITICAL <
FAILSAFE_LOCKDOWN. -/
theorem claim_C3 :
    (∀ e : PyFloat,
        (_get_safety_level e = SafetyLevel.FAILSAFE_LOCKDOWN ↔
          ((5 : ℝ) : PyFloat) ≤ e) ∧
        (_get_safety_level e = SafetyLevel.CRITICAL ↔
          (((4.14 : ℝ) : PyFloat) ≤ e ∧ e < ((5 : ℝ) : PyFloat))) ∧
        (_get_safety_level e = SafetyLevel.ASSET ↔
          (((2.76 : ℝ) : PyFloat) ≤ e ∧ e < ((4.14 : ℝ) : PyFloat))) ∧
        (_get_safety_level e = SafetyLevel.NOISE ↔ e < ((2.76 : ℝ) : PyFloat))) ∧
      _get_safety_level ((5 : ℝ) : PyFloat) = SafetyLevel.FAILSAFE_LOCKDOWN ∧
      _get_safety_level ((4.14 : ℝ) : PyFloat) = SafetyLevel.CRITICAL ∧
      _get_safety_level ((2.76 : ℝ) : PyFloat) = SafetyLevel.ASSET ∧
      _get_safety_level ⊤ = SafetyLevel.FAILSAFE_LOCKDOWN ∧
      ∀ a b : PyFloat, a ≤ b →
        (_get_safety_level a).rank ≤ (_get_safety_level b).rank := by
  refine ⟨fun e => ⟨gsl_eq_lockdown_iff e, gsl_eq_critical_iff e,
    gsl_eq_asset_iff e, gsl_eq_noise_iff e⟩, ?_, ?_, ?_, gsl_top,
    fun a b hab => gsl_rank_mono hab⟩
  · exact (gsl_eq_lockdown_iff _).mpr (le_refl _)
  · exact (gsl_eq_critical_iff _).mpr
      ⟨le_refl _, WithTop.coe_lt_coe.mpr (by norm_num [THRESHOLD_FAILSAFE_LOCKDOWN])⟩
  · exact (gsl_eq_asset_iff _).mpr
      ⟨le_refl _, WithTop.coe_lt_coe.mpr (by norm_num [THRESHOLD_CRITICAL])⟩

/-- Counterexample to claim C5 as stated: on the bytes 0xFF 0xFE the gate
returns the `SICT_`-prefixed wire string, which differs from the claimed
`UTF8_DECODE_FAILURE` and is not among the six unprefixed strings the claim
lists. -/
theorem claim_C5_counterexample :
    (is_encoding_unmeasurable toyUni toyCompressDouble [255, 254]).2 =
        "SICT_UTF8_DECODE_FAILURE" ∧
      (is_encoding_unmeasurable toyUni toyCompressDouble [255, 254]).2 ≠
        "UTF8_DECODE_FAILURE" ∧
      (is_encoding_unmeasurable toyUni toyCompressDouble [255, 254]).2 ∉
        [ "OK", "UTF8_DECODE_FAILURE", "NORMALIZATION_AMBIGUITY",
          "EMOJI_DENSITY_EXCEEDED", "RANDOM_NOISE_SIGNATURE",
          "ENTROPY_OUT_OF_BOUNDS" ] :=
  ⟨rfl, by decide, by decide⟩

/-- Claim C5 amended: every reason code the gate returns is one of the six
wire strings `OK`, `SICT_UTF8_DECODE_FAILURE`, `SICT_NORMALIZATION_AMBIGUITY`,
`SICT_EMOJI_DENSITY_EXCEEDED`, `SICT_RANDOM_NOISE_SIGNATURE`,
`SICT_ENTROPY_OUT_OF_BOUNDS` (the source's enum values carry a `SICT_`
prefix on all non-OK codes), and on the bytes 0xFF 0xFE the verdict is
unmeasurable with reason exactly `SICT_UTF8_DECODE_FAILURE`. -/
theorem claim_C5_amended :
    (∀ (u : UnicodeEnv) (z : List Nat → List Nat) (input_bytes : List Nat),
        (is_encoding_unmeasurable u z input_bytes).2 ∈
          [ "OK", "SICT_UTF8_DECODE_FAILURE", "SICT_NORMALIZATION_AMBIGUITY",
            "SICT_EMOJI_DENSITY_EXCEEDED", "SICT_RANDOM_NOISE_SIGNATURE",
            "SICT_ENTROPY_OUT_OF_BOUNDS" ]) ∧
      ∀ (u : UnicodeEnv) (z : List Nat → List Nat),
        is_encoding_unmeasurable u z [255, 254] =
          (true, "SICT_UTF8_DECODE_FAILURE") := by
  constructor
  · intro u z input_bytes
    unfold is_encoding_unmeasurable
    cases utf8Decode input_bytes with
    | none => simp [EncodingUnmeasurableReason.UTF8_DECODE_FAILURE]
    | some text =>
      repeat' split
      all_goals
        simp [EncodingUnmeasurableReason.OK,
          EncodingUnmeasurableReason.UTF8_DECODE_FAILURE,
          EncodingUnmeasurableReason.NORMALIZATION_AMBIGUITY,
          EncodingUnmeasurableReason.EMOJI_DENSITY_EXCEEDED,
          EncodingUnmeasurableReason.RANDOM_NOISE_SIGNATURE,
          EncodingUnmeasurableReason.ENTROPY_OUT_OF_BOUNDS]
  · intro u z
    rfl

/-- Claim C6: the gate equals the spec's ordered decision list — strict
UTF-8 decode, empty-text OK, normalization ambiguity (NFC ≠ NFKC and
non-printable fraction > 0.10), emoji density > 0.30 (skipped entirely when
the emoji classifier capability is unavailable), a run of 3 consecutive
unnamed code points, and the compression-ratio bounds (ratio < 0.05 or
ratio > 1.2) checked only when the raw byte length is ≥ 100 — returning the
reason of the first matching check and OK when none matches. -/
theorem claim_C6 (u : UnicodeEnv) (z : List Nat → List Nat)
    (input_bytes : List Nat) :
    is_encoding_unmeasurable u z input_bytes = gateSpec u z input_bytes := by
  unfold is_encoding_unmeasurable gateSpec
  cases utf8Decode input_bytes with
  | none => rfl
  | some text => simp only [runLoop_eq_hasUnnamedTriple]

/-- Claim C8: on the empty text the engine fails with the empty-input
`ValueError` for every environment, every forced provider and every
interface type — in particular regardless of the gate's and the providers'
behaviour, so neither is consulted — while the gate itself classifies the
empty byte string as measurable with reason `OK`, making its empty-input
branch unreachable through the engine's own call path. -/
theorem claim_C8 (u : UnicodeEnv) (z : List Nat → List Nat)
    (embed : List Nat → Except String (List ℝ)) (fresh_uuid : String)
    (force_provider : Option String) (interface_type : String) :
    calculate_entropy u z embed fresh_uuid [] force_provider interface_type =
        .error .emptyInput ∧
      is_encoding_unmeasurable u z [] = (false, "OK") :=
  ⟨rfl, rfl⟩

/-- Claim C9: for every reason code and incident identifier the lockdown
payload has exactly the fields status, reason, incident id, timestamp,
notification-sent, ticket-created and review-deadline (the
`LockdownResponse` record), with status `FAILSAFE_LOCKDOWN`, the two flags
true, review deadline `72h`, and the timestamp left `None` for the caller
to supply. -/
theorem claim_C9 (reason_code incident_id : String) :
    (get_lockdown_response reason_code incident_id).status = "FAILSAFE_LOCKDOWN" ∧
      (get_lockdown_response reason_code incident_id).reason = reason_code ∧
      (get_lockdown_response reason_code incident_id).incident_id = incident_id ∧
      (get_lockdown_response reason_code incident_id).timestamp = none ∧
      (get_lockdown_response reason_code incident_id).notification_sent = true ∧
      (get_lockdown_response reason_code incident_id).ticket_created = true ∧
      (get_lockdown_response reason_code incident_id).review_deadline = "72h" :=
  ⟨rfl, rfl, rfl, rfl, rfl, rfl, rfl⟩

/-- Claim C2: for every non-empty text that passes the encoding gate and is
not forced to the compression provider, if the embedding-provider call
fails for any reason the engine does not re-raise but returns a normal
result computed by the compression estimator, with provider
`zlib_fallback` and the compression estimate attached; since the returned
value carries no trace of `msg`, the provider failure is not visible to the
caller. -/
theorem claim_C2 (u : UnicodeEnv) (z : List Nat → List Nat)
    (embed : List Nat → Except String (List ℝ)) (fresh_uuid : String)
    (text : List Nat) (force_provider : Option String) (interface_type : String)
    (msg : String)
    (hne : text ≠ [])
    (hgate : (is_encoding_unmeasurable u z (utf8Encode text)).1 = false)
    (hforce : force_provider ≠ some "zlib")
    (hfail : embed text = .error msg) :
    calculate_entropy u z embed fresh_uuid text force_provider interface_type =
      .ok ⟨(entropy_from_zlib z text).1,
        _get_safety_level (entropy_from_zlib z text).1,
        "zlib_fallback", none, none, some (entropy_from_zlib z text).2,
        false, none⟩ := by
  unfold calculate_entropy
  rw [if_neg hne]
  simp [hgate, hfail, hforce, forceZlib, EntropyProvider.ZLIB_FALLBACK]

/-- Witness for claim C2 at a concrete input: one-character text, toy
Unicode tables, a doubling compressor and an always-failing embedding
provider. -/
theorem claim_C2_witness :
    calculate_entropy toyUni toyCompressDouble toyEmbedFail toyUuid [97] none
        interfaceExternal =
      .ok ⟨(entropy_from_zlib toyCompressDouble [97]).1,
        _get_safety_level (entropy_from_zlib toyCompressDouble [97]).1,
        "zlib_fallback", none, none,
        some (entropy_from_zlib toyCompressDouble [97]).2, false, none⟩ :=
  claim_C2 toyUni toyCompressDouble toyEmbedFail toyUuid [97] none
    interfaceExternal toyFailText (by decide) (by decide) (by decide) rfl

/-- Claim C4: on every non-empty text whose gate verdict is not measurable
the engine fails before any provider is attempted (the failure value is the
same for every embedding provider, which the universally quantified `embed`
expresses): with interface type `external` a `ValueError` carrying the
reason code and the rejection payload, with interface type `internal` a
`RuntimeError` carrying the reason code and a freshly generated incident
identifier inside the lockdown payload. -/
theorem claim_C4 (u : UnicodeEnv) (z : List Nat → List Nat)
    (embed : List Nat → Except String (List ℝ)) (fresh_uuid : String)
    (text : List Nat) (force_provider : Option String) (reason_code : String)
    (hne : text ≠ [])
    (hgate : is_encoding_unmeasurable u z (utf8Encode text) = (true, reason_code)) :
    calculate_entropy u z embed fresh_uuid text force_provider interfaceExternal =
        .error (.gateRejection reason_code (get_rejection_response reason_code)) ∧
      calculate_entropy u z embed fresh_uuid text force_provider interfaceInternal =
        .error (.lockdownTrigger reason_code fresh_uuid
          (get_lockdown_response reason_code fresh_uuid)) := by
  constructor <;>
  · unfold calculate_entropy
    rw [if_neg hne]
    simp [hgate, interfaceInternal, interfaceExternal]

/-- Witness for claim C4 at a concrete input: with the toy emoji classifier
the one-character text is unmeasurable for emoji density, and both
interface types produce their failure shapes. -/
theorem claim_C4_witness :
    calculate_entropy toyUniEmoji toyCompressDouble toyEmbedFail toyUuid [97] none
        interfaceExternal =
      .error (.gateRejection "SICT_EMOJI_DENSITY_EXCEEDED"
        (get_rejection_response "SICT_EMOJI_DENSITY_EXCEEDED")) ∧
    calculate_entropy toyUniEmoji toyCompressDouble toyEmbedFail toyUuid [97] none
        interfaceInternal =
      .error (.lockdownTrigger "SICT_EMOJI_DENSITY_EXCEEDED" toyUuid
        (get_lockdown_response "SICT_EMOJI_DENSITY_EXCEEDED" toyUuid)) :=
  claim_C4 toyUniEmoji toyCompressDouble toyEmbedFail toyUuid [97] none
    "SICT_EMOJI_DENSITY_EXCEEDED" (by decide)
    (by
      have hdec : utf8Decode (utf8Encode [97]) = some [97] := by decide
      simp only [is_encoding_unmeasurable, hdec, toyUniEmoji, emoji_ratio,
        non_printable_ratio, EncodingUnmeasurableReason.EMOJI_DENSITY_EXCEEDED]
      norm_num [runLoop])

lemma entropy_from_zlib_ratio_eq (z : List Nat → List Nat) (text : List Nat) :
    (entropy_from_zlib z text).2.compression_ratio =
      (if 0 < (utf8Encode text).length then
        (((z (utf8Encode text)).length : Nat) : ℚ) / (((utf8Encode text).length : Nat) : ℚ)
      else 1) := rfl

lemma entropy_from_zlib_fst_eq (z : List Nat → List Nat) (text : List Nat) :
    (entropy_from_zlib z text).1 =
      (if (entropy_from_zlib z text).2.compression_ratio ≤ 0 then ⊤
      else ((-Real.log (((entropy_from_zlib z text).2.compression_ratio : ℚ) : ℝ) /
        ENTROPY_FACTOR : ℝ) : PyFloat)) := rfl

/-- Claim C7: the compression estimator returns ratio = compressed bytes /
original bytes over the UTF-8 bytes of the text, with ratio 1 when the
original is empty; its entropy estimate is the returned entropy, equals
`-ln(ratio) / 0.18` whenever the ratio is positive and `+∞` when the ratio
is ≤ 0; and as a pure function of the bytes it is deterministic, two
applications to identical input being the same value. -/
theorem claim_C7 (z : List Nat → List Nat) (text : List Nat) :
    (entropy_from_zlib z text).2.original_size = (utf8Encode text).length ∧
      (entropy_from_zlib z text).2.compressed_size = (z (utf8Encode text)).length ∧
      (entropy_from_zlib z text).2.compression_ratio =
        (if 0 < (utf8Encode text).length then
          (((z (utf8Encode text)).length : Nat) : ℚ) /
            (((utf8Encode text).length : Nat) : ℚ)
        else 1) ∧
      (entropy_from_zlib z text).1 = (entropy_from_zlib z text).2.entropy_estimate ∧
      ((entropy_from_zlib z text).2.compression_ratio ≤ 0 →
        (entropy_from_zlib z text).2.entropy_estimate = ⊤) ∧
      (0 < (entropy_from_zlib z text).2.compression_ratio →
        (entropy_from_zlib z text).2.entropy_estimate =
          ((-Real.log (((entropy_from_zlib z text).2.compression_ratio : ℚ) : ℝ) /
            ENTROPY_FACTOR : ℝ) : PyFloat)) ∧
      entropy_from_zlib z text = entropy_from_zlib z text := by
  refine ⟨rfl, rfl, rfl, rfl, ?_, ?_, rfl⟩
  · intro h
    show (entropy_from_zlib z text).1 = ⊤
    rw [entropy_from_zlib_fst_eq, if_pos h]
  · intro h
    show (entropy_from_zlib z text).1 = _
    rw [entropy_from_zlib_fst_eq, if_neg (not_le.mpr h)]

lemma entropy_neg_iff_ratio_gt_one (z : List Nat → List Nat) (t : List Nat)
    (hpos : 0 < (entropy_from_zlib z t).2.compression_ratio) :
    ((entropy_from_zlib z t).1 < ((0 : ℝ) : PyFloat) ↔
      1 < (entropy_from_zlib z t).2.compression_ratio) := by
  rw [entropy_from_zlib_fst_eq, if_neg (not_le.mpr hpos)]
  rw [WithTop.coe_lt_coe]
  have hq0 : (0 : ℝ) < (((entropy_from_zlib z t).2.compression_ratio : ℚ) : ℝ) := by
    exact_mod_cast hpos
  have hef : (0 : ℝ) < ENTROPY_FACTOR := by norm_num [ENTROPY_FACTOR]
  constructor
  · intro hlt
    by_contra hle
    push_neg at hle
    have hq1 : (((entropy_from_zlib z t).2.compression_ratio : ℚ) : ℝ) ≤ 1 := by
      exact_mod_cast hle
    have hlog := Real.log_nonpos (le_of_lt hq0) hq1
    have : (0 : ℝ) ≤
        -Real.log (((entropy_from_zlib z t).2.compression_ratio : ℚ) : ℝ) /
          ENTROPY_FACTOR :=
      div_nonneg (by linarith) (le_of_lt hef)
    linarith
  · intro hgt
    have hq1 : (1 : ℝ) < (((entropy_from_zlib z t).2.compression_ratio : ℚ) : ℝ) := by
      exact_mod_cast hgt
    have hlog := Real.log_pos hq1
    exact div_neg_of_neg_of_pos (by linarith) hef

/-- Claim C10: the compression estimator's entropy is strictly negative
exactly when the compression ratio exceeds 1; and because the gate's
compression-ratio bound applies only to payloads of at least 100 raw
bytes, a non-empty text of fewer than 100 bytes exists (any one-character
text the compressor expands, as `zlib` does on every short input) that the
gate classifies measurable with reason OK while the engine's compression
path returns a strictly negative entropy classified NOISE. The behaviour
of `unicodedata` and `zlib` on the one-character text is stated as
hypotheses with their real-world values. -/
theorem claim_C10 (u : UnicodeEnv) (z : List Nat → List Nat)
    (embed : List Nat → Except String (List ℝ)) (fresh_uuid : String)
    (hnfc : u.nfc [97] = u.nfkc [97])
    (hemoji : u.isEmoji 97 = false)
    (hz : 1 < (z [97]).length) :
    (∀ (z2 : List Nat → List Nat) (t2 : List Nat),
        0 < (entropy_from_zlib z2 t2).2.compression_ratio →
          ((entropy_from_zlib z2 t2).1 < ((0 : ℝ) : PyFloat) ↔
            1 < (entropy_from_zlib z2 t2).2.compression_ratio)) ∧
      ∃ text : List Nat, text ≠ [] ∧ (utf8Encode text).length < 100 ∧
        is_encoding_unmeasurable u z (utf8Encode text) = (false, "OK") ∧
        ∃ r : EntropyResult,
          calculate_entropy u z embed fresh_uuid text (some "zlib")
              interfaceExternal = .ok r ∧
            r.entropy < ((0 : ℝ) : PyFloat) ∧
            r.safety_level = SafetyLevel.NOISE := by
  have henc : utf8Encode [97] = [97] := by decide
  have hdec : utf8Decode [97] = some [97] := by decide
  have hgate : is_encoding_unmeasurable u z (utf8Encode [97]) = (false, "OK") := by
    simp only [is_encoding_unmeasurable, henc, hdec]
    have hcount : List.countP u.isEmoji [97] = 0 := by
      simp [List.countP, List.countP.go, hemoji]
    norm_num [hnfc, emoji_ratio, hcount, runLoop, EncodingUnmeasurableReason.OK]
  have hratio : (entropy_from_zlib z [97]).2.compression_ratio =
      (((z [97]).length : Nat) : ℚ) := by
    rw [entropy_from_zlib_ratio_eq, henc]
    norm_num
  have hone : (1 : ℚ) < (((z [97]).length : Nat) : ℚ) := by exact_mod_cast hz
  have hpos : 0 < (entropy_from_zlib z [97]).2.compression_ratio := by
    rw [hratio]; linarith
  have hneg : (entropy_from_zlib z [97]).1 < ((0 : ℝ) : PyFloat) :=
    (entropy_neg_iff_ratio_gt_one z [97] hpos).mpr (by rw [hratio]; exact hone)
  have hcalc : calculate_entropy u z embed fresh_uuid [97] (some "zlib")
      interfaceExternal =
      .ok ⟨(entropy_from_zlib z [97]).1,
        _get_safety_level (entropy_from_zlib z [97]).1,
        "zlib_primary", none, none, some (entropy_from_zlib z [97]).2,
        false, none⟩ := by
    unfold calculate_entropy
    rw [if_neg (by decide)]
    simp [hgate, forceZlib, EntropyProvider.ZLIB_PRIMARY]
  have hnoise : _get_safety_level (entropy_from_zlib z [97]).1 = SafetyLevel.NOISE := by
    rw [entropy_from_zlib_fst_eq, if_neg (not_le.mpr hpos)] at hneg ⊢
    refine gsl_coe_noise ?_
    have := WithTop.coe_lt_coe.mp hneg
    have h276 : (0 : ℝ) < THRESHOLD_ASSET := by norm_num [THRESHOLD_ASSET]
    linarith
  refine ⟨fun z2 t2 hp => entropy_neg_iff_ratio_gt_one z2 t2 hp,
    [97], by decide, by decide, hgate, _, hcalc, hneg, hnoise⟩

/-- Witness for claim C10 at a concrete environment: toy Unicode tables and
the doubling compressor realise the hypotheses. -/
theorem claim_C10_witness :
    ∃ text : List Nat, text ≠ [] ∧ (utf8Encode text).length < 100 ∧
      is_encoding_unmeasurable toyUni toyCompressDouble (utf8Encode text) =
        (false, "OK") ∧
      ∃ r : EntropyResult,
        calculate_entropy toyUni toyCompressDouble toyEmbedFail toyUuid text
            (some "zlib") interfaceExternal = .ok r ∧
          r.entropy < ((0 : ℝ) : PyFloat) ∧
          r.safety_level = SafetyLevel.NOISE :=
  (claim_C10 toyUni toyCompressDouble toyEmbedFail toyUuid rfl rfl (by decide)).2

/-- Claim C1 amended: the circuit breaker is a total function (it catches
every engine exception); when the engine returns a result it blocks exactly
when the entropy is ≥ 2.76 with reason `Entropy exceeds asset threshold`
(the source capitalises the first word) and does not block on entropy <
2.76; when the engine fails for any reason it blocks with entropy `+∞` and
the reason is the string `Entropy calculation failed: ` followed by the
exception's description. -/
theorem claim_C1_amended (pr : PyRepr) (u : UnicodeEnv) (z : List Nat → List Nat)
    (embed : List Nat → Except String (List ℝ)) (fresh_uuid : String)
    (text : List Nat) :
    (∀ r : EntropyResult,
        calculate_entropy u z embed fresh_uuid text none interfaceExternal = .ok r →
          ((((2.76 : ℝ) : PyFloat) ≤ r.entropy →
              check_circuit_breaker pr u z embed fresh_uuid text =
                ⟨true, "Entropy exceeds asset threshold", r.entropy, 2.76,
                  msgTriggeredPre ++ pr.float4 r.entropy ++ msgTriggeredSuf⟩) ∧
            (r.entropy < ((2.76 : ℝ) : PyFloat) →
              check_circuit_breaker pr u z embed fresh_uuid text =
                ⟨false, "Entropy within safe range", r.entropy, 2.76,
                  msgNotTriggeredPre ++ pr.float4 r.entropy ++ msgNotTriggeredSuf⟩))) ∧
      ∀ e : EngineError,
        calculate_entropy u z embed fresh_uuid text none interfaceExternal =
            .error e →
          check_circuit_breaker pr u z embed fresh_uuid text =
            ⟨true, "Entropy calculation failed: " ++ exceptionText pr e, ⊤, 2.76,
              msgFailSafePre ++ exceptionText pr e⟩ := by
  constructor
  · intro r hr
    constructor
    · intro hge
      unfold check_circuit_breaker
      rw [hr]
      exact if_pos hge
    · intro hlt
      unfold check_circuit_breaker
      rw [hr]
      exact if_neg (not_le.mpr hlt)
  · intro e he
    unfold check_circuit_breaker
    rw [he]
    rfl

/-- Counterexample to claim C1 as stated: a successful engine call with
entropy `+∞` (hence ≥ 2.76) makes the breaker block with reason
`Entropy exceeds asset threshold`, which is not the claimed string
`entropy exceeds asset threshold`. -/
theorem claim_C1_counterexample :
    (∃ r : EntropyResult,
        calculate_entropy toyUni toyCompressEmpty toyEmbedFail toyUuid [97] none
            interfaceExternal = .ok r ∧
          ((2.76 : ℝ) : PyFloat) ≤ r.entropy) ∧
      (check_circuit_breaker toyRepr toyUni toyCompressEmpty toyEmbedFail toyUuid
          [97]).blocked = true ∧
      (check_circuit_breaker toyRepr toyUni toyCompressEmpty toyEmbedFail toyUuid
          [97]).reason = "Entropy exceeds asset threshold" ∧
      (check_circuit_breaker toyRepr toyUni toyCompressEmpty toyEmbedFail toyUuid
          [97]).reason ≠ "entropy exceeds asset threshold" := by
  have hz : entropy_from_zlib toyCompressEmpty [97] =
      (⊤, ⟨0, 1, 0, ⊤, zlibNote⟩) := by
    unfold entropy_from_zlib
    norm_num [toyCompressEmpty, utf8Encode, encodeChar]
  have hgate : (is_encoding_unmeasurable toyUni toyCompressEmpty
      (utf8Encode [97])).1 = false := by decide
  have hcalc : calculate_entropy toyUni toyCompressEmpty toyEmbedFail toyUuid [97]
      none interfaceExternal =
      .ok ⟨⊤, SafetyLevel.FAILSAFE_LOCKDOWN, "zlib_fallback", none, none,
        some ⟨0, 1, 0, ⊤, zlibNote⟩, false, none⟩ := by
    unfold calculate_entropy
    rw [if_neg (by decide)]
    simp [hgate, hz, gsl_top, toyEmbedFail, EntropyProvider.ZLIB_FALLBACK]
  have hbrk : check_circuit_breaker toyRepr toyUni toyCompressEmpty toyEmbedFail
      toyUuid [97] =
      ⟨true, "Entropy exceeds asset threshold", ⊤, 2.76,
        msgTriggeredPre ++ toyRepr.float4 ⊤ ++ msgTriggeredSuf⟩ := by
    unfold check_circuit_breaker
    rw [hcalc]
    exact if_pos le_top
  refine ⟨⟨_, hcalc, le_top⟩, ?_, ?_, ?_⟩
  · rw [hbrk]
  · rw [hbrk]
  · rw [hbrk]
    decide

end L11
